import Mathlib

/-!
Verification of the Site Connectivity Checker
(`site_checker_tool/__main__.py`) against its design specification.

The checking core is the batch runner: `_synchronous_check` probes each URL
in a loop, `_asynchronous_check` fans out one task per URL via
`asyncio.gather`.  The probe itself (`site_is_online` /
`site_is_online_async`) lives outside the embedded module: a call to it
either returns a boolean or raises an exception `err` whose string form
`str(err)` is some string.  It is therefore modelled as an arbitrary
function `String → Except String Bool`, where `Except.error e` stands for a
raised exception with `str(err) = e` (note `e` may be the empty string,
e.g. for a bare `Exception()`).

The CLI driver (`main`, `_get_websites_urls`, `_read_urls_from_file`) is
embedded with an explicit filesystem parameter, recording the messages
printed to the standard error stream and the exit code taken.
-/

/-- One call to `display_check_result(result, url, error)`: the triple the
batch runner hands to the display layer for a single URL. -/
structure DisplayCall where
  result : Bool
  url : String
  error : String
deriving DecidableEq, Repr

/-- The per-URL body shared by both modes (the loop body of
`_synchronous_check` and the inner coroutine `_check` of
`_asynchronous_check`):

    error = ""
    try:
        result = site_is_online(url)        # or await site_is_online_async(url)
    except Exception as err:
        result = False
        error = str(err)
    display_check_result(result, url, error)

`Except.ok r` is a normal return, `Except.error e` a raised exception with
`str(err) = e`. -/
def _check (probe : String → Except String Bool) (url : String) : DisplayCall :=
  match probe url with
  | Except.ok result => { result := result, url := url, error := "" }
  | Except.error e => { result := false, url := url, error := e }

/-- `_synchronous_check(urls)`: the display calls emitted by the sequential
`for url in urls` loop, in emission order.  Each iteration runs its probe
and error capture to completion (producing its display call) before the
next iteration starts, which the recursion mirrors. -/
def _synchronous_check (probe : String → Except String Bool) :
    List String → List DisplayCall
  | [] => []
  | url :: rest => _check probe url :: _synchronous_check probe rest

/-- `_asynchronous_check(urls)`: `asyncio.gather` launches one `_check(url)`
task per URL; each task emits exactly one display call when its awaited
probe completes, and `gather` returns only after all tasks finished.
`order` is the completion order chosen by the event loop, given as a list
of indices into `urls`; the display calls are emitted in that order.  A
real execution of `gather` corresponds to an `order` that schedules every
task exactly once (`ValidSchedule`). -/
def _asynchronous_check (probe : String → Except String Bool)
    (urls : List String) (order : List Nat) : List DisplayCall :=
  order.filterMap (fun i => (urls[i]?).map (_check probe))

/-- A completion order of the event loop that runs every launched task
exactly once: a permutation of all indices into `urls`. -/
abbrev ValidSchedule (urls : List String) (order : List Nat) : Prop :=
  List.Perm order (List.range urls.length)

/-- The parsed CLI namespace returned by `read_user_cli_args()`: direct
URLs (default `[]`), the input file path (default `""`; the code tests it
for truthiness, so the empty string means "no file supplied"), and the
`-a` flag. -/
structure UserArgs where
  urls : List String
  input_file : String
  asynchronous : Bool

/-- The filesystem at the moment of the run: maps a path to the list of
lines of the file it names (as iterating over the open file yields them,
i.e. before `.strip()`), or `none` when `Path(file).is_file()` is false. -/
abbrev FileSystem := String → Option (List String)

/-- `_read_urls_from_file(file)`: the returned URL list together with the
messages the function prints to stderr.  Existing file: every line is
stripped; a non-empty line list is returned as is, an empty one is
reported as an empty input file.  Missing file: reported as not found.
In both error cases the function returns `[]`. -/
def _read_urls_from_file (fs : FileSystem) (file : String) :
    List String × List String :=
  match fs file with
  | some lines =>
      let urls := lines.map String.trim
      if urls.isEmpty then
        ([], ["Error: empty input file, " ++ file ++ " 🤷‍♀️"])
      else
        (urls, [])
  | none => ([], ["Error: input file not found 🤦‍♀️"])

/-- `_get_websites_urls(user_args)`: the combined URL list (direct URLs
first, then — when an input file was supplied — the URLs read from it)
together with the stderr messages produced while reading the file. -/
def _get_websites_urls (fs : FileSystem) (user_args : UserArgs) :
    List String × List String :=
  if user_args.input_file ≠ "" then
    let r := _read_urls_from_file fs user_args.input_file
    (user_args.urls ++ r.1, r.2)
  else
    (user_args.urls, [])

/-- The observable effect of one run of `main()`: the messages printed to
the standard error stream, the `sys.exit` code when one was taken, and the
URL list and mode flag the checking core was invoked with (`none` when the
core was never invoked). -/
structure MainTrace where
  stderr : List String
  exitCode : Option Nat
  invoked : Option (List String × Bool)
deriving DecidableEq, Repr

/-- `main()`: combine the URLs, bail out to stderr with `sys.exit(1)` when
none are available, otherwise dispatch to `_asynchronous_check` or
`_synchronous_check` on the combined list.  (Named `mainRun` because `main`
is reserved in Lean.) -/
def mainRun (fs : FileSystem) (user_args : UserArgs) : MainTrace :=
  let r := _get_websites_urls fs user_args
  if r.1.isEmpty then
    { stderr := r.2 ++ ["Error: no URLs to check ❗"]
      exitCode := some 1
      invoked := none }
  else
    { stderr := r.2
      exitCode := none
      invoked := some (r.1, user_args.asynchronous) }

/-! ## Concrete probes and filesystems used to instantiate the theorems -/

/-- A probe that raises an exception whose string form is empty, as a bare
`raise Exception()` inside `site_is_online` would produce
(`str(Exception()) = ""`). -/
def emptyMessageProbe : String → Except String Bool :=
  fun _ => Except.error ""

/-- A probe for concrete runs: one URL raises an exception with message
"connection refused", one returns `False` without raising, every other URL
returns `True`. -/
def demoProbe : String → Except String Bool := fun url =>
  if url = "https://down.example" then Except.error "connection refused"
  else if url = "https://off.example" then Except.ok false
  else Except.ok true

/-- A probe for which every call raises. -/
def failingProbe : String → Except String Bool :=
  fun url => Except.error ("cannot reach " ++ url)

/-- A filesystem with no files at all. -/
def noFs : FileSystem := fun _ => none

/-- A filesystem with a single two-line URL file. -/
def demoFs : FileSystem := fun path =>
  if path = "urls.txt" then
    some ["https://a.example\n", "  https://b.example\n"]
  else none

/-- A filesystem with a single file whose two lines are blank. -/
def blankFs : FileSystem := fun path =>
  if path = "blank.txt" then some ["\n", "  \n"] else none

/-! ## Helper lemmas -/

theorem _check_url (probe : String → Except String Bool) (url : String) :
    (_check probe url).url = url := by
  unfold _check
  cases probe url <;> rfl

theorem _synchronous_check_eq_map (probe : String → Except String Bool)
    (urls : List String) :
    _synchronous_check probe urls = urls.map (_check probe) := by
  induction urls with
  | nil => rfl
  | cons u t ih => simp [_synchronous_check, ih]

theorem filterMap_index_range {α β : Type} (l : List α) (g : α → β) :
    (List.range l.length).filterMap (fun i => (l[i]?).map g) = l.map g := by
  induction l with
  | nil => rfl
  | cons a t ih =>
    rw [List.length_cons, List.range_succ_eq_map, List.filterMap_cons,
      List.filterMap_map]
    have h : ((fun i => ((a :: t)[i]?).map g) ∘ Nat.succ) =
        fun i => (t[i]?).map g := by
      funext i
      simp
    rw [h, ih]
    simp

theorem _asynchronous_check_perm (probe : String → Except String Bool)
    (urls : List String) (order : List Nat) (h : ValidSchedule urls order) :
    List.Perm (_asynchronous_check probe urls order)
      (_synchronous_check probe urls) := by
  have h2 := h.filterMap (fun i => (urls[i]?).map (_check probe))
  rw [filterMap_index_range] at h2
  rw [_synchronous_check_eq_map, _asynchronous_check]
  exact h2

theorem mem_synchronous_check {probe : String → Except String Bool}
    {urls : List String} {ev : DisplayCall}
    (h : ev ∈ _synchronous_check probe urls) :
    ∃ u ∈ urls, ev = _check probe u := by
  rw [_synchronous_check_eq_map] at h
  rcases List.mem_map.mp h with ⟨u, hu, he⟩
  exact ⟨u, hu, he.symm⟩

theorem mem_asynchronous_check {probe : String → Except String Bool}
    {urls : List String} {order : List Nat} {ev : DisplayCall}
    (h : ev ∈ _asynchronous_check probe urls order) :
    ∃ u ∈ urls, ev = _check probe u := by
  rcases List.mem_filterMap.mp h with ⟨i, _, hi⟩
  rcases Option.map_eq_some'.mp hi with ⟨u, hu, he⟩
  exact ⟨u, List.getElem?_mem hu, he.symm⟩

theorem _check_of_ok {probe : String → Except String Bool} {u : String}
    {b : Bool} (h : probe u = Except.ok b) :
    _check probe u = { result := b, url := u, error := "" } := by
  unfold _check
  rw [h]

theorem _check_of_error {probe : String → Except String Bool} {u e : String}
    (h : probe u = Except.error e) :
    _check probe u = { result := false, url := u, error := e } := by
  unfold _check
  rw [h]

theorem _check_spec (probe : String → Except String Bool) (u : String) :
    (probe u = Except.ok false →
      (_check probe u).result = false ∧ (_check probe u).error = "") ∧
    ((_check probe u).error ≠ "" →
      probe u = Except.error ((_check probe u).error)) := by
  cases hp : probe u with
  | ok b =>
    rw [_check_of_ok hp]
    refine ⟨fun hb => ?_, fun hne => absurd rfl hne⟩
    injection hb with hb'
    subst hb'
    exact ⟨rfl, rfl⟩
  | error e =>
    rw [_check_of_error hp]
    exact ⟨fun hb => Except.noConfusion hb, fun _ => rfl⟩

theorem synchronous_check_urls (probe : String → Except String Bool)
    (urls : List String) :
    (_synchronous_check probe urls).map DisplayCall.url = urls := by
  rw [_synchronous_check_eq_map, List.map_map]
  have h : (DisplayCall.url ∘ _check probe) = id := by
    funext u
    exact _check_url probe u
  rw [h, List.map_id]

theorem synchronous_check_length (probe : String → Except String Bool)
    (urls : List String) :
    (_synchronous_check probe urls).length = urls.length := by
  rw [_synchronous_check_eq_map]
  exact List.length_map _ _

/-! ## Claims -/

/-- C1, counterexample: a probe that raises an exception whose string form
is empty (`str(err) = ""`) is caught, but the error detail handed to the
display layer is the empty string — not a non-empty one as the claim
states. -/
theorem c1_counterexample :
    emptyMessageProbe "https://a.example" = Except.error "" ∧
    _synchronous_check emptyMessageProbe ["https://a.example"] =
      [{ result := false, url := "https://a.example", error := "" }] :=
  ⟨rfl, rfl⟩

/-- C1 (amended): for every URL in a batch, if the probe call raises an
exception, both the sequential loop and the concurrent tasks catch it at
the per-URL boundary and report that URL as not reachable with the
exception's message string as the error detail (non-empty exactly when
that message is); the exception never propagates: the run is total and
still emits one display call per URL. -/
theorem c1_exception_caught_per_url (probe : String → Except String Bool)
    (urls : List String) (order : List Nat) :
    (∀ ev ∈ _synchronous_check probe urls,
      ∀ e, probe ev.url = Except.error e →
        ev.result = false ∧ ev.error = e) ∧
    (∀ ev ∈ _asynchronous_check probe urls order,
      ∀ e, probe ev.url = Except.error e →
        ev.result = false ∧ ev.error = e) ∧
    (_synchronous_check probe urls).length = urls.length := by
  refine ⟨?_, ?_, synchronous_check_length probe urls⟩
  · intro ev hev e he
    rcases mem_synchronous_check hev with ⟨u, _, rfl⟩
    rw [_check_url] at he
    rw [_check_of_error he]
    exact ⟨rfl, rfl⟩
  · intro ev hev e he
    rcases mem_asynchronous_check hev with ⟨u, _, rfl⟩
    rw [_check_url] at he
    rw [_check_of_error he]
    exact ⟨rfl, rfl⟩

/-- C1, witness: instantiating the amended theorem on a probe that raises
"connection refused" for the checked URL. -/
theorem c1_witness :
    (_check demoProbe "https://down.example").result = false ∧
    (_check demoProbe "https://down.example").error = "connection refused" := by
  have h := (c1_exception_caught_per_url demoProbe ["https://down.example"] [0]).1
  exact h (_check demoProbe "https://down.example")
    (by simp [_synchronous_check]) "connection refused"
    (by rw [_check_url]; rfl)

/-- C2: for every non-empty URL list and either mode, the batch run emits
exactly one display call per input URL: in sequential mode the emitted
URLs are exactly the input list, in concurrent mode they are a permutation
of it — nothing dropped, nothing duplicated. -/
theorem c2_one_result_per_url (probe : String → Except String Bool)
    (urls : List String) (order : List Nat)
    (hne : urls ≠ []) (hord : ValidSchedule urls order) :
    (_synchronous_check probe urls).map DisplayCall.url = urls ∧
    List.Perm ((_asynchronous_check probe urls order).map DisplayCall.url)
      urls := by
  refine ⟨synchronous_check_urls probe urls, ?_⟩
  have hperm :=
    (_asynchronous_check_perm probe urls order hord).map DisplayCall.url
  rwa [synchronous_check_urls] at hperm

/-- C2, witness: a two-URL batch checked in both modes, the concurrent one
under the reversed completion order. -/
theorem c2_witness :
    (["https://a.example", "https://down.example"] : List String) ≠ [] ∧
    ValidSchedule ["https://a.example", "https://down.example"] [1, 0] ∧
    ((_synchronous_check demoProbe
        ["https://a.example", "https://down.example"]).map DisplayCall.url
      = ["https://a.example", "https://down.example"] ∧
    List.Perm ((_asynchronous_check demoProbe
        ["https://a.example", "https://down.example"] [1, 0]).map
          DisplayCall.url)
      ["https://a.example", "https://down.example"]) :=
  ⟨by decide, by decide,
    c2_one_result_per_url demoProbe ["https://a.example",
      "https://down.example"] [1, 0] (by decide) (by decide)⟩

/-- C3: in sequential mode the display calls appear strictly in input
order (the emitted URL sequence equals the input sequence), and the i-th
call is exactly the completed per-URL body of the i-th input URL alone —
each probe, including its error capture, is finished before the next one
starts. -/
theorem c3_sequential_in_order (probe : String → Except String Bool)
    (urls : List String) :
    (_synchronous_check probe urls).map DisplayCall.url = urls ∧
    ∀ i : Nat,
      (_synchronous_check probe urls)[i]? = (urls[i]?).map (_check probe) := by
  refine ⟨synchronous_check_urls probe urls, fun i => ?_⟩
  rw [_synchronous_check_eq_map, List.getElem?_map]

/-- C4: under any completion order that schedules every task exactly once,
the multiset of display calls (url, reachable, error detail) emitted by
concurrent mode equals the multiset emitted by sequential mode on the same
input; only the order may differ. -/
theorem c4_concurrent_matches_sequential (probe : String → Except String Bool)
    (urls : List String) (order : List Nat) (h : ValidSchedule urls order) :
    List.Perm (_asynchronous_check probe urls order)
      (_synchronous_check probe urls) :=
  _asynchronous_check_perm probe urls order h

/-- C4, witness: the reversed completion order on a two-URL batch. -/
theorem c4_witness :
    ValidSchedule ["https://a.example", "https://down.example"] [1, 0] ∧
    List.Perm (_asynchronous_check demoProbe
        ["https://a.example", "https://down.example"] [1, 0])
      (_synchronous_check demoProbe
        ["https://a.example", "https://down.example"]) :=
  ⟨by decide, c4_concurrent_matches_sequential demoProbe
    ["https://a.example", "https://down.example"] [1, 0] (by decide)⟩

/-- C5: no early abort in either mode: whatever the probe does (it may
fail on every URL), the sequential and the concurrent run both emit as
many display calls as there are input URLs and reach every input URL — no
fail-fast on first failure or first success. -/
theorem c5_no_early_abort (probe : String → Except String Bool)
    (urls : List String) (order : List Nat) (hord : ValidSchedule urls order) :
    (_synchronous_check probe urls).length = urls.length ∧
    (_asynchronous_check probe urls order).length = urls.length ∧
    (∀ u ∈ urls, ∃ ev ∈ _synchronous_check probe urls, ev.url = u) ∧
    (∀ u ∈ urls, ∃ ev ∈ _asynchronous_check probe urls order, ev.url = u) := by
  have hperm := _asynchronous_check_perm probe urls order hord
  refine ⟨synchronous_check_length probe urls,
    by rw [hperm.length_eq, synchronous_check_length], fun u hu => ?_,
    fun u hu => ?_⟩
  · refine ⟨_check probe u, ?_, _check_url probe u⟩
    rw [_synchronous_check_eq_map]
    exact List.mem_map_of_mem _ hu
  · refine ⟨_check probe u, ?_, _check_url probe u⟩
    apply hperm.mem_iff.mpr
    rw [_synchronous_check_eq_map]
    exact List.mem_map_of_mem _ hu

/-- C5, witness: a two-URL batch where every probe raises still yields two
display calls in each mode, covering both URLs. -/
theorem c5_witness :
    ValidSchedule ["https://a.example", "https://b.example"] [1, 0] ∧
    ((_synchronous_check failingProbe
        ["https://a.example", "https://b.example"]).length
      = (["https://a.example", "https://b.example"] : List String).length ∧
    (_asynchronous_check failingProbe
        ["https://a.example", "https://b.example"] [1, 0]).length
      = (["https://a.example", "https://b.example"] : List String).length ∧
    (∀ u ∈ (["https://a.example", "https://b.example"] : List String),
      ∃ ev ∈ _synchronous_check failingProbe
        ["https://a.example", "https://b.example"], ev.url = u) ∧
    (∀ u ∈ (["https://a.example", "https://b.example"] : List String),
      ∃ ev ∈ _asynchronous_check failingProbe
        ["https://a.example", "https://b.example"] [1, 0], ev.url = u)) :=
  ⟨by decide, c5_no_early_abort failingProbe
    ["https://a.example", "https://b.example"] [1, 0] (by decide)⟩

theorem trim_newline : ("\n").trim = "" := by
  simp +decide [String.trim, Substring.trim, Substring.takeWhileAux,
    Substring.takeRightWhileAux]

theorem trim_blank_line : ("  \n").trim = "" := by
  simp +decide [String.trim, Substring.trim, Substring.takeWhileAux,
    Substring.takeRightWhileAux]

/-- C6: when the combined URL list (direct URLs plus any read from the
input file) is empty, `main` prints the error message to stderr, exits
with the non-zero status 1, and never invokes the checking core. -/
theorem c6_no_urls_nonzero_exit (fs : FileSystem) (user_args : UserArgs)
    (h : (_get_websites_urls fs user_args).1 = []) :
    (mainRun fs user_args).exitCode = some 1 ∧
    "Error: no URLs to check ❗" ∈ (mainRun fs user_args).stderr ∧
    (mainRun fs user_args).invoked = none := by
  simp [mainRun, h]

/-- C6, witness: no direct URLs and no input file. -/
theorem c6_witness :
    (_get_websites_urls noFs
      { urls := [], input_file := "", asynchronous := false }).1 = [] ∧
    ((mainRun noFs
        { urls := [], input_file := "", asynchronous := false }).exitCode
      = some 1 ∧
    "Error: no URLs to check ❗" ∈ (mainRun noFs
      { urls := [], input_file := "", asynchronous := false }).stderr ∧
    (mainRun noFs
      { urls := [], input_file := "", asynchronous := false }).invoked
      = none) :=
  ⟨rfl, c6_no_urls_nonzero_exit noFs
    { urls := [], input_file := "", asynchronous := false } rfl⟩

/-- C7: when an input file is supplied and exists with at least one line,
its lines are whitespace-trimmed and appended after the directly-supplied
URLs; an existing file without lines is reported as empty, a missing file
as not found — both with a user-facing error message. -/
theorem c7_input_file_resolution (fs : FileSystem) (user_args : UserArgs)
    (hfile : user_args.input_file ≠ "") :
    (∀ lines, fs user_args.input_file = some lines → lines ≠ [] →
      (_get_websites_urls fs user_args).1
        = user_args.urls ++ lines.map String.trim) ∧
    (fs user_args.input_file = some [] →
      _read_urls_from_file fs user_args.input_file
        = ([], ["Error: empty input file, " ++ user_args.input_file
            ++ " 🤷‍♀️"])) ∧
    (fs user_args.input_file = none →
      _read_urls_from_file fs user_args.input_file
        = ([], ["Error: input file not found 🤦‍♀️"])) := by
  refine ⟨fun lines hl hne => ?_, fun hl => ?_, fun hl => ?_⟩
  · simp [_get_websites_urls, hfile, _read_urls_from_file, hl,
      List.isEmpty_iff, hne]
  · simp [_read_urls_from_file, hl]
  · simp [_read_urls_from_file, hl]

/-- C7, witness: one direct URL plus a two-line file; the file's trimmed
lines land after the direct URL. -/
theorem c7_witness :
    (_get_websites_urls demoFs
        { urls := ["https://c.example"], input_file := "urls.txt",
          asynchronous := false }).1
      = ["https://c.example"] ++
        (["https://a.example\n", "  https://b.example\n"].map String.trim) :=
  (c7_input_file_resolution demoFs
      { urls := ["https://c.example"], input_file := "urls.txt",
        asynchronous := false } (by decide)).1
    ["https://a.example\n", "  https://b.example\n"] rfl (by decide)

/-- C8: a probe call that returns `False` without raising yields an empty
error detail; a non-empty error detail is produced only when the probe
raised, and then it equals the exception's message — in both modes. -/
theorem c8_false_return_empty_error (probe : String → Except String Bool)
    (urls : List String) (order : List Nat) :
    (∀ ev ∈ _synchronous_check probe urls,
      (probe ev.url = Except.ok false →
        ev.result = false ∧ ev.error = "") ∧
      (ev.error ≠ "" → probe ev.url = Except.error ev.error)) ∧
    (∀ ev ∈ _asynchronous_check probe urls order,
      (probe ev.url = Except.ok false →
        ev.result = false ∧ ev.error = "") ∧
      (ev.error ≠ "" → probe ev.url = Except.error ev.error)) := by
  constructor
  · intro ev hev
    rcases mem_synchronous_check hev with ⟨u, _, rfl⟩
    rw [_check_url]
    exact _check_spec probe u
  · intro ev hev
    rcases mem_asynchronous_check hev with ⟨u, _, rfl⟩
    rw [_check_url]
    exact _check_spec probe u

/-- C8, witness: a URL whose probe returns `False` without raising is
displayed as offline with an empty error detail. -/
theorem c8_witness :
    (_check demoProbe "https://off.example").result = false ∧
    (_check demoProbe "https://off.example").error = "" := by
  have h := (c8_false_return_empty_error demoProbe
      ["https://off.example"] [0]).1
    (_check demoProbe "https://off.example") (by simp [_synchronous_check])
  exact h.1 (by rw [_check_url]; rfl)

/-- C9: an existing input file with at least one line whose lines are all
blank is not rejected: the reader returns one empty string per line (no
filtering, no error message), and those empty-string URLs are passed on to
the checking core. -/
theorem c9_blank_lines_kept (fs : FileSystem) (file : String)
    (lines : List String) (user_args : UserArgs)
    (hl : fs file = some lines) (hne : lines ≠ [])
    (hblank : ∀ l ∈ lines, l.trim = "") :
    _read_urls_from_file fs file = (List.replicate lines.length "", []) ∧
    (user_args.input_file = file → file ≠ "" →
      (mainRun fs user_args).invoked
        = some (user_args.urls ++ List.replicate lines.length "",
            user_args.asynchronous)) := by
  have hlen : lines.length ≠ 0 := fun h0 =>
    hne (List.eq_nil_of_length_eq_zero h0)
  have hmap : lines.map String.trim = List.replicate lines.length "" := by
    refine List.eq_replicate_iff.mpr ⟨by simp, fun b hb => ?_⟩
    rcases List.mem_map.mp hb with ⟨l, hlmem, rfl⟩
    exact hblank l hlmem
  have hro : _read_urls_from_file fs file
      = (List.replicate lines.length "", []) := by
    simp [_read_urls_from_file, hl, hmap, List.isEmpty_iff,
      List.replicate_eq_nil_iff, hlen]
  refine ⟨hro, fun hif hfne => ?_⟩
  simp [mainRun, _get_websites_urls, hif, hfne, hro, List.isEmpty_iff,
    List.append_eq_nil, List.replicate_eq_nil_iff, hlen]

/-- C9, witness: a file of two blank lines yields two empty-string URLs,
which reach the core. -/
theorem c9_witness :
    _read_urls_from_file blankFs "blank.txt" = (["", ""], []) ∧
    (mainRun blankFs
        { urls := [], input_file := "blank.txt", asynchronous := true
        }).invoked
      = some (["", ""], true) := by
  have h := c9_blank_lines_kept blankFs "blank.txt" ["\n", "  \n"]
    { urls := [], input_file := "blank.txt", asynchronous := true }
    rfl (by decide) (by
      intro l hl
      rcases List.mem_cons.mp hl with rfl | hl2
      · exact trim_newline
      · rcases List.mem_singleton.mp hl2 with rfl
        exact trim_blank_line)
  exact ⟨h.1, h.2 rfl (by decide)⟩

/-- C10: a missing or line-less input file does not abort the run: the
reader prints an error and returns the empty list, and the
directly-supplied URLs are still handed to the checking core with no exit
code taken. -/
theorem c10_file_error_keeps_direct_urls (fs : FileSystem)
    (user_args : UserArgs)
    (hfile : user_args.input_file ≠ "")
    (hbad : fs user_args.input_file = none ∨
      fs user_args.input_file = some [])
    (hurls : user_args.urls ≠ []) :
    (_read_urls_from_file fs user_args.input_file).1 = [] ∧
    (_read_urls_from_file fs user_args.input_file).2 ≠ [] ∧
    (mainRun fs user_args).invoked
      = some (user_args.urls, user_args.asynchronous) ∧
    (mainRun fs user_args).exitCode = none := by
  have hro : (_read_urls_from_file fs user_args.input_file).1 = [] ∧
      (_read_urls_from_file fs user_args.input_file).2 ≠ [] := by
    rcases hbad with hb | hb <;> simp [_read_urls_from_file, hb]
  refine ⟨hro.1, hro.2, ?_, ?_⟩ <;>
    simp [mainRun, _get_websites_urls, hfile, hro.1, List.isEmpty_iff,
      hurls]

/-- C10, witness: one direct URL and a missing input file: the URL is
still checked, no exit code is taken. -/
theorem c10_witness :
    (_read_urls_from_file noFs "missing.txt").1 = [] ∧
    (_read_urls_from_file noFs "missing.txt").2 ≠ [] ∧
    (mainRun noFs
        { urls := ["https://c.example"], input_file := "missing.txt",
          asynchronous := false }).invoked
      = some (["https://c.example"], false) ∧
    (mainRun noFs
        { urls := ["https://c.example"], input_file := "missing.txt",
          asynchronous := false }).exitCode = none :=
  c10_file_error_keeps_direct_urls noFs
    { urls := ["https://c.example"], input_file := "missing.txt",
      asynchronous := false }
    (by decide) (Or.inl rfl) (by decide)
